import Mathlib

/-!
Shallow embedding of the KinectOne device wrapper
(`src/KinectHandler/KinectWrapper.h` and `src/KinectHandler/KinectHandler.h`).

Pure lookups and arithmetic are translated directly; the stateful wrapper
is modelled as explicit state passing, with the native Kinect runtime's
responses (sensor acquisition, availability, HRESULT failures, frame
contents) supplied as explicit environment inputs.  Machine floats that
only ever flow through NaN checks and truncation are modelled as a
rational value paired with a NaN flag.
-/

/-- Portable joint-role enumeration, transcribed from `enum JointType` in
`KinectWrapper.h` lines 218-246 (26 values, `JointManual` last). -/
inductive JointType
  | JointHead
  | JointNeck
  | JointSpineShoulder
  | JointShoulderLeft
  | JointElbowLeft
  | JointWristLeft
  | JointHandLeft
  | JointHandTipLeft
  | JointThumbLeft
  | JointShoulderRight
  | JointElbowRight
  | JointWristRight
  | JointHandRight
  | JointHandTipRight
  | JointThumbRight
  | JointSpineMiddle
  | JointSpineWaist
  | JointHipLeft
  | JointKneeLeft
  | JointFootLeft
  | JointFootTipLeft
  | JointHipRight
  | JointKneeRight
  | JointFootRight
  | JointFootTipRight
  | JointManual
deriving DecidableEq, Fintype, Repr

/-- Native joint index `JointType_SpineBase` of the Kinect for Windows v2 SDK
(`Kinect.h`, an external dependency of the repository; the `_JointType`
enumerators below carry their SDK numeric values 0..24). -/
def JointType_SpineBase : Nat := 0

def JointType_SpineMid : Nat := 1

def JointType_Neck : Nat := 2

def JointType_Head : Nat := 3

def JointType_ShoulderLeft : Nat := 4

def JointType_ElbowLeft : Nat := 5

def JointType_WristLeft : Nat := 6

def JointType_HandLeft : Nat := 7

def JointType_ShoulderRight : Nat := 8

def JointType_ElbowRight : Nat := 9

def JointType_WristRight : Nat := 10

def JointType_HandRight : Nat := 11

def JointType_HipLeft : Nat := 12

def JointType_KneeLeft : Nat := 13

def JointType_AnkleLeft : Nat := 14

def JointType_FootLeft : Nat := 15

def JointType_HipRight : Nat := 16

def JointType_KneeRight : Nat := 17

def JointType_AnkleRight : Nat := 18

def JointType_FootRight : Nat := 19

def JointType_SpineShoulder : Nat := 20

def JointType_HandTipLeft : Nat := 21

def JointType_ThumbLeft : Nat := 22

def JointType_HandTipRight : Nat := 23

def JointType_ThumbRight : Nat := 24

/-- `JointType_Count` of the Kinect v2 SDK: the native joint arrays have
25 entries. -/
def JointType_Count : Nat := 25

/-- `BODY_COUNT` of the Kinect v2 SDK: the body array has 6 slots. -/
def BODY_COUNT : Nat := 6

/-- The member `KinectJointTypeDictionary` of `KinectWrapper`
(`KinectWrapper.h` lines 248-275): a `std::map` with one entry per
non-manual role.  A key absent from the map (`JointManual`) is modelled
as `none`; `std::map::at` on it throws `std::out_of_range`. -/
def KinectJointTypeDictionary : JointType → Option Nat
  | .JointHead => some JointType_Head
  | .JointNeck => some JointType_Neck
  | .JointSpineShoulder => some JointType_SpineShoulder
  | .JointShoulderLeft => some JointType_ShoulderLeft
  | .JointElbowLeft => some JointType_ElbowLeft
  | .JointWristLeft => some JointType_WristLeft
  | .JointHandLeft => some JointType_HandLeft
  | .JointHandTipLeft => some JointType_HandTipLeft
  | .JointThumbLeft => some JointType_ThumbLeft
  | .JointShoulderRight => some JointType_ShoulderRight
  | .JointElbowRight => some JointType_ElbowRight
  | .JointWristRight => some JointType_WristRight
  | .JointHandRight => some JointType_HandRight
  | .JointHandTipRight => some JointType_HandTipRight
  | .JointThumbRight => some JointType_ThumbRight
  | .JointSpineMiddle => some JointType_SpineMid
  | .JointSpineWaist => some JointType_SpineBase
  | .JointHipLeft => some JointType_HipLeft
  | .JointKneeLeft => some JointType_KneeLeft
  | .JointFootLeft => some JointType_AnkleLeft
  | .JointFootTipLeft => some JointType_FootLeft
  | .JointHipRight => some JointType_HipRight
  | .JointKneeRight => some JointType_KneeRight
  | .JointFootRight => some JointType_AnkleRight
  | .JointFootTipRight => some JointType_FootRight
  | .JointManual => none

/-- `KinectWrapper::KinectJointType` (`KinectWrapper.h` lines 471-474):
`KinectJointTypeDictionary.at(role)`; `none` models the
`std::out_of_range` exception thrown for a role absent from the map. -/
def KinectJointType (kinectJointType : JointType) : Option Nat :=
  KinectJointTypeDictionary kinectJointType

/-- The 26 `JointType` values in declaration order (the order
`Enum::GetValues<TrackedJointType>()` yields in `KinectHandler.h`). -/
def allJointTypes : List JointType :=
  [.JointHead, .JointNeck, .JointSpineShoulder, .JointShoulderLeft,
   .JointElbowLeft, .JointWristLeft, .JointHandLeft, .JointHandTipLeft,
   .JointThumbLeft, .JointShoulderRight, .JointElbowRight, .JointWristRight,
   .JointHandRight, .JointHandTipRight, .JointThumbRight, .JointSpineMiddle,
   .JointSpineWaist, .JointHipLeft, .JointKneeLeft, .JointFootLeft,
   .JointFootTipLeft, .JointHipRight, .JointKneeRight, .JointFootRight,
   .JointFootTipRight, .JointManual]

/-- The 25 non-manual joint roles, in declaration order. -/
def nonManualJoints : List JointType :=
  [.JointHead, .JointNeck, .JointSpineShoulder, .JointShoulderLeft,
   .JointElbowLeft, .JointWristLeft, .JointHandLeft, .JointHandTipLeft,
   .JointThumbLeft, .JointShoulderRight, .JointElbowRight, .JointWristRight,
   .JointHandRight, .JointHandTipRight, .JointThumbRight, .JointSpineMiddle,
   .JointSpineWaist, .JointHipLeft, .JointKneeLeft, .JointFootLeft,
   .JointFootTipLeft, .JointHipRight, .JointKneeRight, .JointFootRight,
   .JointFootTipRight]

/-- `S_OK` HRESULT value. -/
def S_OK : Int := 0

/-- `S_FALSE` HRESULT value. -/
def S_FALSE : Int := 1

/-- `KinectWrapper::kinect_status_result` (`KinectWrapper.h` lines 205-216):
returns `S_OK` when a sensor handle exists and its availability probe
reports available, `S_FALSE` otherwise.  The state is the nullness of
`kinectSensor`; the probe outcome `avail` is an environment input. -/
def kinect_status_result (kinectSensor : Bool) (avail : Bool) : Int :=
  if kinectSensor then
    (if avail then S_OK else S_FALSE)
  else S_FALSE

/-- `KinectWrapper::status_result` (`KinectWrapper.h` lines 283-291):
switches on `kinect_status_result`, mapping `S_OK` to 0, `S_FALSE` to 1,
anything else to -1. -/
def status_result (kinectSensor : Bool) (avail : Bool) : Int :=
  if kinect_status_result kinectSensor avail = S_OK then 0
  else if kinect_status_result kinectSensor avail = S_FALSE then 1
  else -1

/-- `CameraSpacePoint` (Kinect SDK struct): three float coordinates,
modelled as rationals (the wrapper never produces NaN inputs here). -/
structure CameraSpacePoint where
  X : ℚ
  Y : ℚ
  Z : ℚ
deriving DecidableEq

/-- One float coordinate of a `ColorSpacePoint` as produced by the native
projection: its numeric value together with its NaN flag, so that
`std::isnan` is expressible. -/
structure ColorCoord where
  val : ℚ
  isNaN : Bool
deriving DecidableEq

/-- The native response of
`ICoordinateMapper::MapCameraPointToColorSpace`: the HRESULT success flag
and the projected `ColorSpacePoint` out-parameter. -/
structure MapResult where
  hrOk : Bool
  X : ColorCoord
  Y : ColorCoord
deriving DecidableEq

/-- C++ float-to-int conversion: truncation toward zero. -/
def floatToInt (q : ℚ) : Int :=
  q.num.tdiv (q.den : Int)

/-- `KinectWrapper::MapCoordinate` (`KinectWrapper.h` lines 487-495).
The native mapper is an environment input: a function from the camera
point actually passed to the native call to its response.  The input
point is handed to the native call unmodified; on HRESULT failure or a
NaN coordinate the sentinel `(-1, -1)` is returned. -/
def MapCoordinate (mapper : CameraSpacePoint → MapResult)
    (skeletonPoint : CameraSpacePoint) : Int × Int :=
  let spacePoint := mapper skeletonPoint
  if spacePoint.hrOk && !spacePoint.X.isNaN && !spacePoint.Y.isNaN then
    (floatToInt spacePoint.X.val, floatToInt spacePoint.Y.val)
  else (-1, -1)

/-- A possible native projection whose X output echoes the input depth:
used to exhibit that `MapCoordinate` performs no depth clamping. -/
def depthMapper : CameraSpacePoint → MapResult :=
  fun p => ⟨true, ⟨p.Z, false⟩, ⟨0, false⟩⟩

/-- A native projection response that is constantly
`(hrOk, X = 5, Y = 0)`. -/
def constMapper : CameraSpacePoint → MapResult :=
  fun _ => ⟨true, ⟨5, false⟩, ⟨0, false⟩⟩

/-- A native projection that reports NaN in X. -/
def nanMapper : CameraSpacePoint → MapResult :=
  fun _ => ⟨true, ⟨0, true⟩, ⟨0, false⟩⟩

/-- A native projection that succeeds with the input X and Y. -/
def echoMapper : CameraSpacePoint → MapResult :=
  fun p => ⟨true, ⟨p.X, false⟩, ⟨p.Y, false⟩⟩

/-- Lifecycle-relevant state of a `KinectWrapper` instance: the nullness
of the native pointers `kinectSensor`, `bodyFrameReader` and
`colorFrameReader`, the `initialized_` flag, the `updater_thread_`
pointer, and a ghost counter of how many times a thread was constructed
(for the at-most-once property). -/
structure WrapperState where
  kinectSensor : Bool
  bodyFrameReader : Bool
  colorFrameReader : Bool
  initialized : Bool
  updaterThread : Bool
  threadCreations : Nat
deriving DecidableEq, Repr

/-- The freshly constructed wrapper: all pointers null, all flags false. -/
def w0 : WrapperState :=
  ⟨false, false, false, false, false, 0⟩

/-- Outcome of the native sensor acquisition sequence inside
`KinectWrapper::initKinect` (`KinectWrapper.h` lines 102-131), an
environment input: `noSensor` is `GetDefaultKinectSensor` failing,
`notAvailable` is an acquired sensor whose `Open` failed or whose
availability probe after the warm-up delay reports unavailable, `ok` is
full success. -/
inductive InitOutcome
  | noSensor
  | notAvailable
  | ok
deriving DecidableEq, Repr

/-- `KinectWrapper::initKinect`: returns the success flag and the state
after the acquisition attempt.  In the `notAvailable` and `ok` cases
`GetDefaultKinectSensor` has stored a non-null sensor pointer. -/
def initKinect (s : WrapperState) (e : InitOutcome) : Bool × WrapperState :=
  match e with
  | .noSensor => (false, s)
  | .notAvailable => (false, { s with kinectSensor := true })
  | .ok => (true, { s with kinectSensor := true })

/-- The `if (!updater_thread_) updater_thread_.reset(new std::thread(...))`
step of `KinectWrapper::initialize` (`KinectWrapper.h` lines 303-305):
creates the polling thread only when none exists yet; the ghost counter
records each construction. -/
def maybeStartThread (s : WrapperState) : WrapperState :=
  if s.updaterThread = false then
    { s with updaterThread := true, threadCreations := s.threadCreations + 1 }
  else s

/-- `KinectWrapper::initialize` (`KinectWrapper.h` lines 293-313), named
after its managed forwarder `KinectHandler::InitializeKinect`
(`KinectHandler.h` lines 156-159).  Sets `initialized_` to the result of
`initKinect`; on failure returns 1, otherwise opens both readers,
starts the polling thread if absent, and returns 0. -/
def InitializeKinect (s : WrapperState) (e : InitOutcome) : Int × WrapperState :=
  let r := initKinect s e
  let s1 := { r.2 with initialized := r.1 }
  if r.1 = false then (1, s1)
  else
    let s2 := { s1 with bodyFrameReader := true, colorFrameReader := true }
    (0, maybeStartThread s2)

/-- Native HRESULT and structured-exception outcomes during
`KinectWrapper::shutdown`, environment inputs: whether each
`UnsubscribeFrameArrived` call FAILs (which makes the corresponding
terminate helper throw a C++ exception), and whether the sensor
`Close`/`Release` pair raises a structured exception. -/
structure ShutdownEnv where
  unsubBodyFails : Bool
  unsubColorFails : Bool
  closeFails : Bool
deriving DecidableEq, Repr

/-- `KinectWrapper::terminateSkeleton` (`KinectWrapper.h` lines 165-183):
no-op when the body reader is already null; throws (modelled as `none`)
when unsubscription FAILs, before any state is mutated; otherwise
releases the reader and nulls it (structured exceptions inside the
guarded region are swallowed, so the net state change is the same). -/
def terminateSkeleton (s : WrapperState) (unsubFails : Bool) : Option WrapperState :=
  if s.bodyFrameReader = false then some s
  else if unsubFails then none
  else some { s with bodyFrameReader := false }

/-- `KinectWrapper::terminateColor` (`KinectWrapper.h` lines 185-203),
same shape as `terminateSkeleton` for the color reader. -/
def terminateColor (s : WrapperState) (unsubFails : Bool) : Option WrapperState :=
  if s.colorFrameReader = false then some s
  else if unsubFails then none
  else some { s with colorFrameReader := false }

/-- `KinectWrapper::shutdown` (`KinectWrapper.h` lines 384-419).  With a
sensor handle: runs both terminate helpers (a throw is caught by the
outer `catch (...)` and returns -1 with the mutations made so far kept),
then clears `initialized_`, and closes and releases the sensor inside a
structured-exception guard: on a structured exception it returns -2
with the sensor pointer left non-null (the `kinectSensor = nullptr`
assignment is skipped); on success it nulls the sensor and returns 0.
Without a sensor handle it returns 1 (NoSensor) untouched. -/
def shutdown (s : WrapperState) (e : ShutdownEnv) : Int × WrapperState :=
  if s.kinectSensor then
    match terminateSkeleton s e.unsubBodyFails with
    | none => (-1, s)
    | some s1 =>
      match terminateColor s1 e.unsubColorFails with
      | none => (-1, s1)
      | some s2 =>
        let s3 := { s2 with initialized := false }
        if e.closeFails then (-2, s3)
        else (0, { s3 with kinectSensor := false })
  else (1, s)

/-- `KinectWrapper::is_initialized` (`KinectWrapper.h` lines 278-281). -/
def is_initialized (s : WrapperState) : Bool :=
  s.initialized

/-- One host-driven lifecycle call: `initialize()` with its acquisition
outcome, or `shutdown()` with its native failure pattern. -/
inductive KOp
  | init (e : InitOutcome)
  | shut (e : ShutdownEnv)
deriving DecidableEq, Repr

/-- State reached after one lifecycle call. -/
def applyOp (s : WrapperState) (op : KOp) : WrapperState :=
  match op with
  | .init e => (InitializeKinect s e).2
  | .shut e => (shutdown s e).2

/-- State reached after a sequence of lifecycle calls. -/
def runOps (s : WrapperState) : List KOp → WrapperState
  | [] => s
  | op :: rest => runOps (applyOp s op) rest

/-- Is this lifecycle call an `initialize()` that succeeds? -/
def isOkInit : KOp → Bool
  | .init .ok => true
  | _ => false

/-- The state reached from a fresh wrapper by one successful
`initialize()`. -/
def wReady : WrapperState :=
  ⟨true, true, true, true, true, 1⟩

/-- A `shutdown` environment in which every native call succeeds. -/
def cleanShutdownEnv : ShutdownEnv := ⟨false, false, false⟩

/-- A `shutdown` environment in which unsubscribing the body-frame event
FAILs, so `terminateSkeleton` throws. -/
def unsubFailEnv : ShutdownEnv := ⟨true, false, false⟩

/-- A `shutdown` environment in which closing the sensor raises a
structured exception. -/
def closeFailEnv : ShutdownEnv := ⟨false, false, true⟩

/-- Kinect SDK `Joint` struct as used by the wrapper: joint index,
tracking state and camera-space position (floats as rationals). -/
structure Joint where
  jointType : Nat
  trackingState : Nat
  position : ℚ × ℚ × ℚ
deriving DecidableEq, Repr

/-- Kinect SDK `JointOrientation` struct: joint index and quaternion. -/
structure JointOrientation where
  jointType : Nat
  orientation : ℚ × ℚ × ℚ × ℚ
deriving DecidableEq, Repr

/-- Content of one non-null `IBody` slot as read by
`updateSkeletalData`: its `get_IsTracked` answer and the joint and
orientation arrays its `GetJoints`/`GetJointOrientations` produce. -/
structure BodyData where
  tracked : Bool
  joints : List Joint
  boneOrientations : List JointOrientation
deriving DecidableEq, Repr

/-- The skeletal part of the wrapper state: `skeleton_tracked_` and the
published arrays `skeleton_positions_` and `bone_orientations_`. -/
structure SkelState where
  skeleton_tracked : Bool
  skeleton_positions : List Joint
  bone_orientations : List JointOrientation
deriving DecidableEq, Repr

/-- `if (i) i->get_IsTracked(&isSkeletonTracked)` for one body slot
(`none` is a null `IBody*`). -/
def slotTracked : Option BodyData → Bool
  | some b => b.tracked
  | none => false

/-- The body loop of `KinectWrapper::updateSkeletalData`
(`KinectWrapper.h` lines 65-85): walks the slots in order; at the first
slot reporting tracked it sets `skeleton_tracked_`, copies that body's
joints and orientations into the published arrays and breaks; an
untracked slot sets `skeleton_tracked_` to false and continues. -/
def parseBodies : List (Option BodyData) → SkelState → SkelState
  | [], s => s
  | b :: rest, s =>
    match b with
    | some bd =>
      if bd.tracked then
        { skeleton_tracked := true, skeleton_positions := bd.joints,
          bone_orientations := bd.boneOrientations }
      else parseBodies rest { s with skeleton_tracked := false }
    | none => parseBodies rest { s with skeleton_tracked := false }

/-- `KinectWrapper::updateSkeletalData` (`KinectWrapper.h` lines 51-86):
gives up when the body reader is null or `AcquireLatestFrame` yields no
frame (`frame = none`); otherwise refreshes the body array and parses
it. -/
def updateSkeletalData (readerPresent : Bool)
    (frame : Option (List (Option BodyData))) (s : SkelState) : SkelState :=
  if readerPresent = false then s
  else
    match frame with
    | none => s
    | some kinectBodies => parseBodies kinectBodies s

/-- The first body slot reporting tracked, if any. -/
def firstTrackedBody : List (Option BodyData) → Option BodyData
  | [] => none
  | b :: rest => if slotTracked b then b else firstTrackedBody rest

/-- `KinectWrapper::CameraImageSize` (`KinectWrapper.h` lines 476-479). -/
def CameraImageSize : Nat × Nat := (1920, 1080)

/-- `KinectWrapper::CameraBufferSize` (`KinectWrapper.h` lines 481-485):
width times height times 4 bytes per pixel. -/
def CameraBufferSize : Nat := CameraImageSize.1 * CameraImageSize.2 * 4

/-- The color-buffer part of the wrapper state: nullness of the color
reader, the allocation bookkeeping fields `size_in_bytes_` and
`size_in_bytes_last_`, the allocation (with its size) behind
`color_buffer_`, and a ghost counter of `new BYTE[...]` allocations. -/
structure ColorState where
  colorReaderPresent : Bool
  size_in_bytes : Nat
  size_in_bytes_last : Nat
  colorBufferAlloc : Option Nat
  allocCount : Nat
deriving DecidableEq, Repr

/-- A fresh wrapper's color state: reader open, nothing allocated. -/
def c0 : ColorState :=
  ⟨true, 0, 0, none, 0⟩

/-- `KinectWrapper::ResetBuffer` (`KinectWrapper.h` lines 502-520):
reallocates only when no buffer exists or the recorded allocated size
`size_in_bytes_` differs from the requested size; it never touches
`size_in_bytes_last_`. -/
def ResetBuffer (s : ColorState) (size : Nat) : ColorState :=
  if s.colorBufferAlloc = none ∨ s.size_in_bytes ≠ size then
    let s1 := { s with colorBufferAlloc := none }
    let s2 :=
      if size ≠ 0 then
        { s1 with colorBufferAlloc := some size, allocCount := s1.allocCount + 1 }
      else s1
    { s2 with size_in_bytes := size }
  else s

/-- `KinectWrapper::updateColorData` (`KinectWrapper.h` lines 88-100):
gives up when the color reader is null or no frame is available;
otherwise sizes the buffer via `ResetBuffer(CameraBufferSize())` and
copies the converted frame into it (the copy itself does not change any
bookkeeping field). -/
def updateColorData (s : ColorState) (frameAvailable : Bool) : ColorState :=
  if s.colorReaderPresent = false then s
  else if frameAvailable = false then s
  else ResetBuffer s CameraBufferSize

/-- The color arm of `KinectWrapper::update` (`KinectWrapper.h` lines
363-379): `updateColorData` is dispatched only while
`rgb_stream_enabled_` is set. -/
def colorDispatch (s : ColorState) (rgbStreamEnabled frameAvailable : Bool) : ColorState :=
  if rgbStreamEnabled then updateColorData s frameAvailable else s

/-- `KinectWrapper::color_buffer` (`KinectWrapper.h` lines 451-454): the
reader-visible pair `(color_buffer_, size_in_bytes_last_)`. -/
def color_buffer (s : ColorState) : Option Nat × Nat :=
  (s.colorBufferAlloc, s.size_in_bytes_last)

/-- The managed `KinectJoint` class (`KinectHandler.h` lines 17-30). -/
structure KinectJoint where
  JointRole : JointType
  TrackingState : Nat
  Position : ℚ × ℚ × ℚ
  Orientation : ℚ × ℚ × ℚ × ℚ
deriving DecidableEq, Repr

/-- Value-initialized SDK `Joint`, the content of an untouched
`skeleton_positions_` slot. -/
def jointDefault : Joint := ⟨0, 0, (0, 0, 0)⟩

/-- Value-initialized SDK `JointOrientation`. -/
def orientationDefault : JointOrientation := ⟨0, (0, 0, 0, 0)⟩

/-- The loop body of `KinectHandler::GetTrackedKinectJoints`
(`KinectHandler.h` lines 79-95) for one role: a managed joint built from
the indexed position and orientation entries. -/
def buildKinectJoint (v : JointType) (p : Joint) (o : JointOrientation) : KinectJoint :=
  { JointRole := v, TrackingState := p.trackingState,
    Position := p.position, Orientation := o.orientation }

/-- The `for each` loop of `KinectHandler::GetTrackedKinectJoints`
(`KinectHandler.h` lines 74-96): walks the role enumeration in order,
skips `JointManual`, and for every other role indexes both arrays at
`KinectJointType(role)`; a failing dictionary lookup would surface as a
thrown exception (`none`). -/
def collectTrackedJoints (positions : List Joint)
    (orientations : List JointOrientation) : List JointType → Option (List KinectJoint)
  | [] => some []
  | v :: rest =>
    if v = JointType.JointManual then collectTrackedJoints positions orientations rest
    else
      match KinectJointType v with
      | none => none
      | some idx =>
        (collectTrackedJoints positions orientations rest).map
          (fun tail =>
            buildKinectJoint v (positions.getD idx jointDefault)
              (orientations.getD idx orientationDefault) :: tail)

/-- `KinectHandler::GetTrackedKinectJoints` (`KinectHandler.h` lines
66-99): an empty list when `IsInitialized` is false, otherwise one
managed joint per non-manual role in enumeration order. -/
def GetTrackedKinectJoints (isInit : Bool) (positions : List Joint)
    (orientations : List JointOrientation) : Option (List KinectJoint) :=
  if isInit = false then some []
  else collectTrackedJoints positions orientations allJointTypes

/-- A concrete tracked body used in concrete instantiations. -/
def demoBody : BodyData :=
  ⟨true, [⟨3, 2, (1, 2, 3)⟩], [⟨3, (0, 0, 0, 1)⟩]⟩

/-- A concrete untracked body. -/
def demoIdleBody : BodyData :=
  ⟨false, [⟨3, 0, (9, 9, 9)⟩], [⟨3, (0, 0, 0, 1)⟩]⟩

/-- Six body slots none of which is tracked. -/
def demoNoTracked : List (Option BodyData) :=
  [none, some demoIdleBody, none, none, none, none]

/-- Six body slots with the first tracked body in slot 2. -/
def demoTracked : List (Option BodyData) :=
  [none, some demoIdleBody, some demoBody, none, some demoBody, none]

/-- A concrete published skeletal snapshot. -/
def demoSkel : SkelState :=
  ⟨true, [⟨0, 2, (7, 7, 7)⟩], [⟨0, (1, 0, 0, 0)⟩]⟩

/-- Claim C1: the joint-role mapping is total and injective over the 25
non-manual `JointType` values, every non-manual role is covered, and
looking up the reserved `JointManual` role fails with an out-of-range
error (modelled as `none`). -/
theorem joint_role_mapping_total_injective :
    (nonManualJoints.map KinectJointType).all Option.isSome = true
    ∧ (nonManualJoints.map KinectJointType).Nodup
    ∧ KinectJointType JointType.JointManual = none
    ∧ nonManualJoints.length = 25
    ∧ ∀ j : JointType, j = JointType.JointManual ∨ j ∈ nonManualJoints := by
  decide

/-- Claim C10: `status_result` never returns the error value -1; it
returns 0 exactly when the sensor handle is non-null and the
availability probe reports available, and 1 in every other case. -/
theorem status_result_never_error :
    ∀ kinectSensor avail : Bool,
      (status_result kinectSensor avail = 0 ∨ status_result kinectSensor avail = 1)
      ∧ status_result kinectSensor avail = (if kinectSensor && avail then 0 else 1) := by
  decide

/-- Claim C5 (amended): `MapCoordinate` performs no depth clamping; it
passes the input point to the native projection unmodified, and its
result is determined solely by the native projection response. -/
theorem map_coordinate_no_depth_clamp :
    ∀ (m₁ m₂ : CameraSpacePoint → MapResult) (p q : CameraSpacePoint),
      m₁ p = m₂ q → MapCoordinate m₁ p = MapCoordinate m₂ q := by
  intro m₁ m₂ p q h
  unfold MapCoordinate
  rw [h]

/-- Witness for claim C5: two different native projections that agree on
the given points yield the same mapped coordinate. -/
theorem map_coordinate_no_depth_clamp_witness :
    MapCoordinate depthMapper ⟨0, 0, 5⟩ = MapCoordinate constMapper ⟨1, 2, 3⟩ :=
  map_coordinate_no_depth_clamp depthMapper constMapper ⟨0, 0, 5⟩ ⟨1, 2, 3⟩ (by decide)

/-- Counterexample for claim C5 as stated: under a native projection
whose X output echoes the input depth, `MapCoordinate` on a point with
Z = -5 yields (-5, 0) while the same point with Z = 0.1 yields (0, 0),
so negative depth is not clamped to a small positive epsilon before the
native projection is invoked. -/
theorem map_coordinate_depth_not_clamped_cex :
    ¬ (MapCoordinate depthMapper ⟨0, 0, -5⟩ = MapCoordinate depthMapper ⟨0, 0, 1/10⟩) := by
  have hn1 : ((1/10 : ℚ)).num = 1 := by norm_num
  have hd1 : ((1/10 : ℚ)).den = 10 := by norm_num
  have hn2 : ((-5 : ℚ)).num = -5 := by norm_num
  have hd2 : ((-5 : ℚ)).den = 1 := by norm_num
  simp [MapCoordinate, depthMapper, floatToInt, hn1, hd1, hn2, hd2]
  decide

/-- Claim C6: whenever the native projection call fails or reports a NaN
coordinate, `MapCoordinate` returns the sentinel pair (-1, -1); in every
other case it returns the projected coordinates. -/
theorem map_coordinate_sentinel_on_failure :
    ∀ (mapper : CameraSpacePoint → MapResult) (p : CameraSpacePoint),
      ((mapper p).hrOk = false ∨ (mapper p).X.isNaN = true ∨ (mapper p).Y.isNaN = true →
        MapCoordinate mapper p = (-1, -1))
      ∧ ((mapper p).hrOk = true → (mapper p).X.isNaN = false → (mapper p).Y.isNaN = false →
        MapCoordinate mapper p = (floatToInt (mapper p).X.val, floatToInt (mapper p).Y.val)) := by
  intro mapper p
  constructor
  · intro h
    unfold MapCoordinate
    rcases h with h | h | h <;> simp [h]
  · intro h1 h2 h3
    unfold MapCoordinate
    simp [h1, h2, h3]

/-- Witness for claim C6: a NaN projection maps to the sentinel, a clean
projection maps to its truncated coordinates. -/
theorem map_coordinate_sentinel_on_failure_witness :
    MapCoordinate nanMapper ⟨0, 0, 1⟩ = (-1, -1)
    ∧ MapCoordinate echoMapper ⟨3, 4, 2⟩ = (3, 4) :=
  ⟨(map_coordinate_sentinel_on_failure nanMapper ⟨0, 0, 1⟩).1 (Or.inr (Or.inl rfl)),
   ((map_coordinate_sentinel_on_failure echoMapper ⟨3, 4, 2⟩).2 rfl rfl rfl).trans (by decide)⟩

/-- Claim C7, behavior at the failing input: after enabling camera
streaming and processing one color frame from a fresh wrapper, the
backing allocation is 1920 x 1080 x 4 = 8294400 bytes, but the
reader-visible pair returned by `color_buffer` reports size 0, because
`size_in_bytes_last_` is never assigned anywhere in the wrapper.  The
reallocation policy half of the claim does hold: disabling streaming
and dispatching again with the same target size leaves the state
(including the allocation counter) unchanged. -/
theorem color_buffer_reported_size_bug :
    color_buffer (colorDispatch c0 true true) = (some 8294400, 0)
    ∧ (colorDispatch c0 true true).size_in_bytes = 1920 * 1080 * 4
    ∧ (colorDispatch c0 true true).allocCount = 1
    ∧ colorDispatch (colorDispatch (colorDispatch c0 true true) false false) true true
        = colorDispatch c0 true true := by
  decide

/-- Claim C8: `GetTrackedKinectJoints` on an uninitialized handler
returns the empty list and never an error; on an initialized handler it
returns, without error, one entry per non-manual joint role in
enumeration order. -/
theorem tracked_joints_empty_or_full :
    ∀ (positions : List Joint) (orientations : List JointOrientation),
      GetTrackedKinectJoints false positions orientations = some []
      ∧ ∃ l, GetTrackedKinectJoints true positions orientations = some l
          ∧ l.map KinectJoint.JointRole = nonManualJoints
          ∧ l.length = 25 := by
  intro positions orientations
  exact ⟨rfl, ⟨_, rfl, rfl, rfl⟩⟩

/-- Starting the polling thread does not touch the `initialized_` flag. -/
theorem maybeStartThread_initialized (s : WrapperState) :
    (maybeStartThread s).initialized = s.initialized := by
  unfold maybeStartThread
  split <;> rfl

/-- Claim C2 (amended): over every reachable wrapper state (where
`initialized_` implies a live sensor handle), `is_initialized()` is true
immediately after an `initialize()` returning 0 and false after one
returning nonzero; it is false immediately after any `shutdown()` that
does not fail with -1, while a `shutdown()` returning -1 (exception
thrown while unsubscribing a frame event) leaves the flag unchanged. -/
theorem initialized_lifecycle_amended :
    ∀ (s : WrapperState) (e : InitOutcome) (se : ShutdownEnv),
      (s.kinectSensor = false → s.initialized = false) →
      is_initialized (InitializeKinect s e).2 = decide ((InitializeKinect s e).1 = 0)
      ∧ is_initialized (shutdown s se).2 =
          (if (shutdown s se).1 = -1 then is_initialized s else false) := by
  intro s e se hinv
  constructor
  · cases e <;>
      simp [InitializeKinect, initKinect, is_initialized, maybeStartThread_initialized]
  · obtain ⟨ks, br, cr, ini, th, tc⟩ := s
    obtain ⟨ub, uc, cf⟩ := se
    cases ks <;> cases br <;> cases cr <;> cases ini <;> cases ub <;> cases uc <;> cases cf <;>
      simp_all [shutdown, terminateSkeleton, terminateColor, is_initialized]

/-- Witness for claim C2: from a fresh wrapper, a successful
`initialize()` turns the flag on, and a clean `shutdown()` from the
initialized state turns it off. -/
theorem initialized_lifecycle_amended_witness :
    is_initialized (InitializeKinect w0 InitOutcome.ok).2 = true
    ∧ is_initialized (shutdown wReady cleanShutdownEnv).2 = false :=
  ⟨((initialized_lifecycle_amended w0 InitOutcome.ok cleanShutdownEnv (by decide)).1).trans
      (by decide),
   ((initialized_lifecycle_amended wReady InitOutcome.ok cleanShutdownEnv (by decide)).2).trans
      (by decide)⟩

/-- Counterexample for claim C2 as stated: after a successful
`initialize()` from a fresh wrapper, a `shutdown()` whose body-frame
unsubscription fails returns -1 and leaves `is_initialized()` true, so
the flag is not false immediately after every `shutdown()` call. -/
theorem initialized_after_failed_shutdown_cex :
    (InitializeKinect w0 InitOutcome.ok).1 = 0
    ∧ (InitializeKinect w0 InitOutcome.ok).2 = wReady
    ∧ (shutdown wReady unsubFailEnv).1 = -1
    ∧ ¬ (is_initialized (shutdown wReady unsubFailEnv).2 = false) := by
  decide

/-- Claim C3 (amended): `shutdown()` returns NoSensor (1) and leaves the
state untouched whenever no sensor handle is held — in particular when
no sensor was ever acquired — and whenever the first of two consecutive
`shutdown()` calls returns 0 (Ok) or 1 (NoSensor), the second returns 1.
After a first call failing with -2 or -1 the sensor handle is retained,
so the second call retries the teardown instead of reporting NoSensor. -/
theorem shutdown_second_call_amended :
    ∀ (s : WrapperState) (e1 e2 : ShutdownEnv),
      (s.kinectSensor = false → shutdown s e1 = (1, s))
      ∧ ((shutdown s e1).1 = 0 ∨ (shutdown s e1).1 = 1 →
          (shutdown (shutdown s e1).2 e2).1 = 1) := by
  intro s e1 e2
  obtain ⟨ks, br, cr, ini, th, tc⟩ := s
  obtain ⟨ub1, uc1, cf1⟩ := e1
  cases ks <;> cases br <;> cases cr <;> cases ub1 <;> cases uc1 <;> cases cf1 <;>
    simp [shutdown, terminateSkeleton, terminateColor]

/-- Witness for claim C3: a clean shutdown from the initialized state
followed by a second shutdown yields 1, and shutdown on a fresh wrapper
with no sensor yields (1, unchanged). -/
theorem shutdown_second_call_amended_witness :
    (shutdown (shutdown wReady cleanShutdownEnv).2 cleanShutdownEnv).1 = 1
    ∧ shutdown w0 cleanShutdownEnv = (1, w0) :=
  ⟨(shutdown_second_call_amended wReady cleanShutdownEnv cleanShutdownEnv).2 (Or.inl (by decide)),
   (shutdown_second_call_amended w0 cleanShutdownEnv cleanShutdownEnv).1 (by decide)⟩

/-- Counterexample for claim C3 as stated: when the first `shutdown()`
hits a structured exception while closing the sensor it returns -2 and
keeps the (dangling) sensor pointer, so the immediately following
`shutdown()` runs the teardown again and returns 0, not NoSensor (1). -/
theorem shutdown_second_call_cex :
    (shutdown wReady closeFailEnv).1 = -2
    ∧ (shutdown (shutdown wReady closeFailEnv).2 cleanShutdownEnv).1 = 0
    ∧ ¬ ((shutdown (shutdown wReady closeFailEnv).2 cleanShutdownEnv).1 = 1) := by
  decide

/-- `shutdown` never touches the polling thread or its creation count. -/
theorem shutdown_preserves_thread (s : WrapperState) (e : ShutdownEnv) :
    (shutdown s e).2.updaterThread = s.updaterThread
    ∧ (shutdown s e).2.threadCreations = s.threadCreations := by
  obtain ⟨ks, br, cr, ini, th, tc⟩ := s
  obtain ⟨ub, uc, cf⟩ := e
  cases ks <;> cases br <;> cases cr <;> cases ub <;> cases uc <;> cases cf <;>
    simp [shutdown, terminateSkeleton, terminateColor]

/-- Thread effect of one `initialize()` call: the thread exists afterward
exactly if it existed before or the call succeeded, and a construction
happens only when the call succeeds while no thread exists. -/
theorem initialize_thread_spec (s : WrapperState) (e : InitOutcome) :
    (InitializeKinect s e).2.updaterThread = (s.updaterThread || isOkInit (KOp.init e))
    ∧ (InitializeKinect s e).2.threadCreations
        = s.threadCreations
          + (if s.updaterThread = false ∧ isOkInit (KOp.init e) = true then 1 else 0) := by
  cases e <;> cases hth : s.updaterThread <;>
    simp [InitializeKinect, initKinect, maybeStartThread, isOkInit, hth]

/-- Thread effect of one lifecycle call. -/
theorem applyOp_thread (s : WrapperState) (op : KOp) :
    (applyOp s op).updaterThread = (s.updaterThread || isOkInit op)
    ∧ (applyOp s op).threadCreations
        = s.threadCreations + (if s.updaterThread = false ∧ isOkInit op = true then 1 else 0) := by
  cases op with
  | init e => exact initialize_thread_spec s e
  | shut e =>
    have h := shutdown_preserves_thread s e
    simp [applyOp, h.1, h.2, isOkInit]

/-- The thread flag after a call sequence: set exactly when it was
already set or some call is a successful `initialize()`. -/
theorem runOps_thread (ops : List KOp) :
    ∀ s : WrapperState,
      (runOps s ops).updaterThread = (s.updaterThread || ops.any isOkInit) := by
  induction ops with
  | nil => intro s; simp [runOps]
  | cons op rest ih =>
    intro s
    simp only [runOps, List.any_cons]
    rw [ih (applyOp s op), (applyOp_thread s op).1]
    cases s.updaterThread <;> cases isOkInit op <;> simp

/-- Once the polling thread exists, no further call ever constructs
another one. -/
theorem runOps_thread_frozen (ops : List KOp) :
    ∀ s : WrapperState, s.updaterThread = true →
      (runOps s ops).threadCreations = s.threadCreations := by
  induction ops with
  | nil => intro s _; rfl
  | cons op rest ih =>
    intro s h
    have ha := applyOp_thread s op
    have hthread : (applyOp s op).updaterThread = true := by
      rw [ha.1, h]; simp
    have hcre : (applyOp s op).threadCreations = s.threadCreations := by
      rw [ha.2, h]; simp
    simp only [runOps]
    rw [ih _ hthread, hcre]

/-- From a thread-less state with a zeroed counter, a call sequence
constructs the thread exactly once if it contains a successful
`initialize()`, and never otherwise. -/
theorem runOps_thread_fresh (ops : List KOp) :
    ∀ s : WrapperState, s.updaterThread = false → s.threadCreations = 0 →
      (runOps s ops).threadCreations = (if ops.any isOkInit = true then 1 else 0) := by
  induction ops with
  | nil => intro s _ h2; simp [runOps, h2]
  | cons op rest ih =>
    intro s h1 h2
    have ha := applyOp_thread s op
    cases hok : isOkInit op with
    | true =>
      have hthread : (applyOp s op).updaterThread = true := by
        rw [ha.1, h1, hok]; simp
      have hcre : (applyOp s op).threadCreations = 1 := by
        rw [ha.2, h1, h2, hok]; simp
      simp only [runOps]
      rw [runOps_thread_frozen rest _ hthread, hcre]
      simp [List.any_cons, hok]
    | false =>
      have hthread : (applyOp s op).updaterThread = false := by
        rw [ha.1, h1, hok]; simp
      have hcre : (applyOp s op).threadCreations = 0 := by
        rw [ha.2, h2, hok]; simp
      simp only [runOps]
      rw [ih _ hthread hcre]
      simp [List.any_cons, hok]

/-- Claim C9: across every sequence of `initialize()` and `shutdown()`
calls starting from a fresh wrapper, the polling thread is constructed
at most once: it exists exactly after the first successful
`initialize()`, every later call reuses it, and the construction
counter is 1 when some `initialize()` succeeded and 0 otherwise. -/
theorem updater_thread_single_creation :
    ∀ ops : List KOp,
      (runOps w0 ops).threadCreations ≤ 1
      ∧ (runOps w0 ops).updaterThread = ops.any isOkInit
      ∧ (runOps w0 ops).threadCreations = (if ops.any isOkInit = true then 1 else 0) := by
  intro ops
  have h1 := runOps_thread ops w0
  have h2 := runOps_thread_fresh ops w0 rfl rfl
  refine ⟨?_, by simpa [w0] using h1, h2⟩
  rw [h2]
  split <;> simp

/-- When no slot of a nonempty body array is tracked, the parse loop
clears the tracked flag and leaves the published arrays untouched. -/
theorem parseBodies_no_tracked (bodies : List (Option BodyData)) :
    ∀ s : SkelState, firstTrackedBody bodies = none → bodies ≠ [] →
      parseBodies bodies s =
        ⟨false, s.skeleton_positions, s.bone_orientations⟩ := by
  induction bodies with
  | nil => intro s _ hne; exact absurd rfl hne
  | cons b rest ih =>
    intro s h _
    match b with
    | none =>
      simp only [firstTrackedBody, slotTracked, if_neg] at h
      rw [if_neg (by simp)] at h
      cases rest with
      | nil => simp [parseBodies]
      | cons c cs =>
        simpa [parseBodies] using ih { s with skeleton_tracked := false } h (by simp)
    | some bd =>
      cases ht : bd.tracked with
      | true => simp [firstTrackedBody, slotTracked, ht] at h
      | false =>
        rw [firstTrackedBody, if_neg (by simp [slotTracked, ht])] at h
        cases rest with
        | nil => simp [parseBodies, ht]
        | cons c cs =>
          simpa [parseBodies, ht] using ih { s with skeleton_tracked := false } h (by simp)

/-- When some slot is tracked, the parse loop publishes the first such
slot's joints and orientations and sets the tracked flag. -/
theorem parseBodies_first_tracked (bodies : List (Option BodyData)) :
    ∀ (s : SkelState) (bd : BodyData), firstTrackedBody bodies = some bd →
      parseBodies bodies s = ⟨true, bd.joints, bd.boneOrientations⟩ := by
  induction bodies with
  | nil => intro s bd h; simp [firstTrackedBody] at h
  | cons b rest ih =>
    intro s bd h
    match b with
    | none =>
      rw [firstTrackedBody, if_neg (by simp [slotTracked])] at h
      simpa [parseBodies] using ih { s with skeleton_tracked := false } bd h
    | some c =>
      cases ht : c.tracked with
      | true =>
        rw [firstTrackedBody, if_pos (by simp [slotTracked, ht])] at h
        have hc : c = bd := by simpa using h
        subst hc
        simp [parseBodies, ht]
      | false =>
        rw [firstTrackedBody, if_neg (by simp [slotTracked, ht])] at h
        simpa [parseBodies, ht] using ih { s with skeleton_tracked := false } bd h

/-- Claim C4: a delivered body frame is parsed first-tracked-wins with
stale-on-loss: when some slot reports tracked, the published joint and
orientation arrays are overwritten from the first such slot (and no
later slot) and the tracked flag is set; when none of the
`BODY_COUNT`-many slots is tracked, the tracked flag is cleared while
the previously published arrays remain unchanged. -/
theorem skeletal_first_tracked_stale_on_loss :
    ∀ (kinectBodies : List (Option BodyData)) (s : SkelState),
      (kinectBodies.length = BODY_COUNT → firstTrackedBody kinectBodies = none →
        updateSkeletalData true (some kinectBodies) s =
          ⟨false, s.skeleton_positions, s.bone_orientations⟩)
      ∧ (∀ bd : BodyData, firstTrackedBody kinectBodies = some bd →
          updateSkeletalData true (some kinectBodies) s =
            ⟨true, bd.joints, bd.boneOrientations⟩) := by
  intro bodies s
  constructor
  · intro hlen hnone
    have hne : bodies ≠ [] := by
      intro hh
      rw [hh] at hlen
      simp [BODY_COUNT] at hlen
    simpa [updateSkeletalData] using parseBodies_no_tracked bodies s hnone hne
  · intro bd h
    simpa [updateSkeletalData] using parseBodies_first_tracked bodies s bd h

/-- Witness for claim C4: with six untracked slots the snapshot keeps
its stale arrays and clears the flag; with the first tracked body in
slot 2 the snapshot takes exactly that body's data. -/
theorem skeletal_first_tracked_stale_on_loss_witness :
    updateSkeletalData true (some demoNoTracked) demoSkel =
      ⟨false, demoSkel.skeleton_positions, demoSkel.bone_orientations⟩
    ∧ updateSkeletalData true (some demoTracked) demoSkel =
      ⟨true, demoBody.joints, demoBody.boneOrientations⟩ :=
  ⟨(skeletal_first_tracked_stale_on_loss demoNoTracked demoSkel).1 (by decide) (by decide),
   (skeletal_first_tracked_stale_on_loss demoTracked demoSkel).2 demoBody (by decide)⟩
